import Mathlib

/-!
Verification of the grblHAL MODBUS I/O plugin (`src/modbus_io.c`).

The development shallowly embeds the command transaction engine of the
plugin: the M101/M102 parameter validator (`mbio_validate`), the six
frame-building functions, the M101 executor dispatch (`mbio_execute`),
the response handler (`mbio_rx_packet`), the exception/alarm path
(`mbio_failed`, `mbio_rx_exception`) and the bounded polling loop
(`mbio_Wait_ReadDiscreteInputs`).

C `float` parameter values are modelled as rationals extended with a
NaN point (`FVal`); every float value that the validator manipulates is
either an exactly representable integer, a small rational, or NaN, so
this model is exact for the properties considered.  Machine integers
are modelled as `Nat`/`Int` with explicit `% 256` / `% 65536` at the
points where the C code performs conversions.  The mutable globals
`sys.var5399` (the shared result register), `sys.abort` and
`sys.cold_start` are passed explicitly; side effects of the response
and exception handlers (alarms, warnings, enqueued tasks) are returned
as explicit action lists.
-/

/-- A C float value as seen by the validator: either NaN or an exact
rational. All numeric literals appearing in the validator are exactly
representable in 32-bit floats, so rational arithmetic is exact here. -/
inductive FVal where
  | nan : FVal
  | num : ℚ → FVal
deriving DecidableEq, Repr

/-- Modelled from the spec: the host macro `isintf(x)` recognising
integer-valued parameter words (grbl core, not under `src/`); a value is
integral iff it is a rational with denominator 1, and NaN is not integral. -/
def isintf : FVal → Bool
  | FVal.nan => false
  | FVal.num q => q.den == 1

/-- Modelled from the spec: the host macro `isnanf(x)` (grbl core, not
under `src/`). -/
def isnanf : FVal → Bool
  | FVal.nan => true
  | FVal.num _ => false

/-- C comparison `x < c` for a float `x` and constant `c`; any
comparison with NaN is false. -/
def flt : FVal → ℚ → Bool
  | FVal.nan, _ => false
  | FVal.num q, c => decide (q < c)

/-- C comparison `x > c` for a float `x` and constant `c`; any
comparison with NaN is false. -/
def fgt : FVal → ℚ → Bool
  | FVal.nan, _ => false
  | FVal.num q, c => decide (c < q)

/-- C comparison `x != c` for a float `x` and constant `c`; NaN is
unequal to everything. -/
def fne : FVal → ℚ → Bool
  | FVal.nan, _ => true
  | FVal.num q, c => decide (q ≠ c)

/-- C float-to-integer conversion (truncation toward zero): for a
rational `n/d` in lowest terms this is the truncating integer division
of `n` by `d`. NaN conversion is undefined behaviour in C; the model
returns 0, and no theorem depends on that choice. -/
def truncFVal : FVal → ℤ
  | FVal.nan => 0
  | FVal.num q => Int.tdiv q.num q.den

/-- C conversion to `uint16_t`: reduction modulo 2^16. -/
def toU16 (z : ℤ) : ℕ := (z % 65536).toNat

/-- C conversion of a (possibly signed) `char` to the `uint8_t` ADU
byte: reduction modulo 2^8. -/
def toU8 (z : ℤ) : ℕ := (z % 256).toNat

/-- Status codes returned by the validator and used by the alarm paths
(from `grbl/gcode.h`, as used by `src/modbus_io.c`). -/
inductive status_code where
  | ok
  | badNumberFormat
  | gcodeValueWordMissing
  | gcodeValueOutOfRange
  | unhandled
  | expressionInvalidResult
  | gcodeTimeout
deriving DecidableEq, Repr

/-- The user M-code of a parser block: M101 (`UserMCode_Generic1`),
M102 (`UserMCode_Generic2`), or any other code (delegated to the
handler chain). -/
inductive user_mcode_t where
  | generic1
  | generic2
  | other : ℕ → user_mcode_t
deriving DecidableEq, Repr

/-- Presence flags of the parameter words used by the plugin
(`gc_block->words`). -/
structure parameter_words where
  d : Bool
  e : Bool
  p : Bool
  q : Bool
  r : Bool
deriving DecidableEq, Repr

/-- Values of the parameter words used by the plugin
(`gc_block->values`). The C struct always carries a value for every
word, whether or not the word was present in the block. -/
structure parameter_values where
  d : FVal
  e : FVal
  p : FVal
  q : FVal
  r : FVal
deriving DecidableEq, Repr

/-- The slice of `parser_block_t` read and written by the plugin. -/
structure parser_block where
  user_mcode : user_mcode_t
  words : parameter_words
  values : parameter_values
deriving DecidableEq, Repr

/-- ModBus function code 1 (`ModBus_ReadCoils`, from `grbl/modbus.h`;
the numeric values are pinned by the comments in `mbio_execute`). -/
def ModBus_ReadCoils : ℕ := 1

/-- ModBus function code 2 (`ModBus_ReadDiscreteInputs`). -/
def ModBus_ReadDiscreteInputs : ℕ := 2

/-- ModBus function code 3 (`ModBus_ReadHoldingRegisters`). -/
def ModBus_ReadHoldingRegisters : ℕ := 3

/-- ModBus function code 4 (`ModBus_ReadInputRegisters`). -/
def ModBus_ReadInputRegisters : ℕ := 4

/-- ModBus function code 5 (`ModBus_WriteCoil`). -/
def ModBus_WriteCoil : ℕ := 5

/-- ModBus function code 6 (`ModBus_WriteRegister`). -/
def ModBus_WriteRegister : ℕ := 6

/-- Modelled from the spec: the opaque context tag `MBIO_Command`
identifying frames built by this plugin (`mbio_response_t`, declared in
`modbus_io.h` which is not under `src/`); only its identity matters. -/
def MBIO_Command : ℕ := 1

/-- Modelled from the spec: `MODBUS_SET_MSB16` from the transport
interface (`grbl/modbus.h`), the high byte of a big-endian 16-bit
field. -/
def MODBUS_SET_MSB16 (v : ℕ) : ℕ := v / 256 % 256

/-- Modelled from the spec: `MODBUS_SET_LSB16` from the transport
interface (`grbl/modbus.h`), the low byte of a big-endian 16-bit
field. -/
def MODBUS_SET_LSB16 (v : ℕ) : ℕ := v % 256

/-- Modelled from the spec: `modbus_read_u16` from the transport
interface (`grbl/modbus.h`), joining two bytes into a big-endian
16-bit value. -/
def modbus_read_u16 (hi lo : ℕ) : ℕ := hi * 256 + lo

/-- The slice of `modbus_message_t` used by the plugin: context tag,
CRC flag, the ADU bytes, and the expected transmit/receive lengths. -/
structure modbus_message where
  context : ℕ
  crc_check : Bool
  adu : List ℕ
  tx_length : ℕ
  rx_length : ℕ
deriving DecidableEq, Repr

/-- Byte `i` of a message ADU (`msg->adu[i]`); out-of-range reads
return 0 (they never occur on messages built by this plugin). -/
def getAdu (msg : modbus_message) (i : ℕ) : ℕ := msg.adu.getD i 0

/-- `mbio_ModBus_ReadCoils`: the frame built and dispatched for a
read-coils transaction. -/
def mbio_ModBus_ReadCoils_msg (device_address : ℤ) (register_address value : ℕ) : modbus_message :=
  { context := MBIO_Command
  , crc_check := true
  , adu := [toU8 device_address, ModBus_ReadCoils,
            MODBUS_SET_MSB16 register_address, MODBUS_SET_LSB16 register_address,
            MODBUS_SET_MSB16 value, MODBUS_SET_LSB16 value, 0, 0]
  , tx_length := 8
  , rx_length := 6 }

/-- `mbio_ModBus_WriteCoil`: the frame built and dispatched for a
write-coil transaction. -/
def mbio_ModBus_WriteCoil_msg (device_address : ℤ) (register_address value : ℕ) : modbus_message :=
  { context := MBIO_Command
  , crc_check := true
  , adu := [toU8 device_address, ModBus_WriteCoil,
            MODBUS_SET_MSB16 register_address, MODBUS_SET_LSB16 register_address,
            MODBUS_SET_MSB16 value, MODBUS_SET_LSB16 value, 0, 0]
  , tx_length := 8
  , rx_length := 8 }

/-- `mbio_ModBus_ReadDiscreteInputs`: the frame built and dispatched
for a read-discrete-inputs transaction. -/
def mbio_ModBus_ReadDiscreteInputs_msg (device_address : ℤ) (register_address value : ℕ) : modbus_message :=
  { context := MBIO_Command
  , crc_check := true
  , adu := [toU8 device_address, ModBus_ReadDiscreteInputs,
            MODBUS_SET_MSB16 register_address, MODBUS_SET_LSB16 register_address,
            MODBUS_SET_MSB16 value, MODBUS_SET_LSB16 value, 0, 0]
  , tx_length := 8
  , rx_length := 6 }

/-- `mbio_ModBus_ReadHoldingRegisters`: the frame built and dispatched
for a read-holding-registers transaction; the count bytes are the
fixed constants 0x00/0x01 and the function takes no value argument. -/
def mbio_ModBus_ReadHoldingRegisters_msg (device_address : ℤ) (register_address : ℕ) : modbus_message :=
  { context := MBIO_Command
  , crc_check := true
  , adu := [toU8 device_address, ModBus_ReadHoldingRegisters,
            MODBUS_SET_MSB16 register_address, MODBUS_SET_LSB16 register_address,
            0x00, 0x01, 0, 0]
  , tx_length := 8
  , rx_length := 7 }

/-- `mbio_ModBus_ReadInputRegisters`: the frame built and dispatched
for a read-input-registers transaction. -/
def mbio_ModBus_ReadInputRegisters_msg (device_address : ℤ) (register_address value : ℕ) : modbus_message :=
  { context := MBIO_Command
  , crc_check := true
  , adu := [toU8 device_address, ModBus_ReadInputRegisters,
            MODBUS_SET_MSB16 register_address, MODBUS_SET_LSB16 register_address,
            MODBUS_SET_MSB16 value, MODBUS_SET_LSB16 value, 0, 0]
  , tx_length := 8
  , rx_length := 7 }

/-- `mbio_ModBus_WriteRegister`: the frame built and dispatched for a
write-register transaction. -/
def mbio_ModBus_WriteRegister_msg (device_address : ℤ) (register_address value : ℕ) : modbus_message :=
  { context := MBIO_Command
  , crc_check := true
  , adu := [toU8 device_address, ModBus_WriteRegister,
            MODBUS_SET_MSB16 register_address, MODBUS_SET_LSB16 register_address,
            MODBUS_SET_MSB16 value, MODBUS_SET_LSB16 value, 0, 0]
  , tx_length := 8
  , rx_length := 8 }

/-- The word-claiming assignment at the end of the M101 branch of
`mbio_validate` (`words.d = words.e = words.p = words.q = Off`). -/
def claimWordsA (gc : parser_block) : parser_block :=
  { gc with words := { gc.words with d := false, e := false, p := false, q := false } }

/-- The word-claiming assignment at the end of the M102 branch of
`mbio_validate` (`words.d = words.p = words.q = words.r = Off`). -/
def claimWordsB (gc : parser_block) : parser_block :=
  { gc with words := { gc.words with d := false, p := false, q := false, r := false } }

/-- The value of the `state` variable after the four sequential
structural checks of the M101 branch of `mbio_validate` (each failing
check overwrites the status with `Status_BadNumberFormat`; the initial
value is `Status_GcodeValueWordMissing`). -/
def m101_structural_state (gc : parser_block) : status_code :=
  let state := status_code.gcodeValueWordMissing
  let state := if !gc.words.d || !isintf gc.values.d then status_code.badNumberFormat else state
  let state := if !gc.words.e || !isintf gc.values.e then status_code.badNumberFormat else state
  let state := if !gc.words.p || !isintf gc.values.p then status_code.badNumberFormat else state
  if gc.words.q && !isintf gc.values.q then status_code.badNumberFormat else state

/-- The M101 (`UserMCode_Generic1`) branch of `mbio_validate`:
sequential structural checks, then the chained range check, then the
per-function value fix-up and word claiming. -/
def mbio_validate_M101 (gc : parser_block) : status_code × parser_block :=
  let state := m101_structural_state gc
  if state ≠ status_code.badNumberFormat then
    if flt gc.values.d 0 || fgt gc.values.d 247
       || (fne gc.values.e 2 && fne gc.values.e 4
           && fne gc.values.e 5 && fne gc.values.e 6
           && fne gc.values.e 3 && fne gc.values.e 1)
       || flt gc.values.p 1 || fgt gc.values.p 9999
       || flt gc.values.q 0 || fgt gc.values.q 65535 then
      (status_code.gcodeValueOutOfRange, claimWordsA gc)
    else
      let gc2 :=
        match truncFVal gc.values.e with
        | 2 => { gc with values := { gc.values with q := FVal.num 1 } }
        | 4 => { gc with values := { gc.values with q := FVal.num 1 } }
        | _ => gc
      (status_code.ok, claimWordsA gc2)
  else (state, gc)

/-- The value of the `state` variable after the four sequential
structural checks of the M102 branch of `mbio_validate`: the timeout
word R is only checked for presence and non-NaN (not for
integrality). -/
def m102_structural_state (gc : parser_block) : status_code :=
  let state := status_code.gcodeValueWordMissing
  let state := if !gc.words.d || !isintf gc.values.d then status_code.badNumberFormat else state
  let state := if !gc.words.p || !isintf gc.values.p then status_code.badNumberFormat else state
  let state := if !gc.words.q || !isintf gc.values.q then status_code.badNumberFormat else state
  if !gc.words.r || isnanf gc.values.r then status_code.badNumberFormat else state

/-- The M102 (`UserMCode_Generic2`) branch of `mbio_validate`:
sequential structural checks, then the chained range check which
bounds the timeout R by [0, 3600]. -/
def mbio_validate_M102 (gc : parser_block) : status_code × parser_block :=
  let state := m102_structural_state gc
  if state ≠ status_code.badNumberFormat then
    if flt gc.values.d 0 || fgt gc.values.d 247
       || flt gc.values.p 1 || fgt gc.values.p 9999
       || flt gc.values.q 0 || fgt gc.values.q 1
       || flt gc.values.r 0 || fgt gc.values.r 3600 then
      (status_code.gcodeValueOutOfRange, claimWordsB gc)
    else
      (status_code.ok, claimWordsB gc)
  else (state, gc)

/-- `mbio_validate` without the handler-chain fallback: the switch on
`gc_block->user_mcode`. -/
def mbio_validate (gc : parser_block) : status_code × parser_block :=
  match gc.user_mcode with
  | user_mcode_t.generic1 => mbio_validate_M101 gc
  | user_mcode_t.generic2 => mbio_validate_M102 gc
  | user_mcode_t.other _ => (status_code.unhandled, gc)

/-- The final line of `mbio_validate`: delegate to a previously
installed validate handler when the command is unhandled and a handler
is present. -/
def mbio_validate_chained (chain : Option (parser_block → status_code × parser_block))
    (gc : parser_block) : status_code × parser_block :=
  let r := mbio_validate gc
  match r.1, chain with
  | status_code.unhandled, some f => f gc
  | _, _ => r

/-- The M101 branch of `mbio_execute`: compute the device address,
zero-based register index and 16-bit value (coercing the value to the
on/off sentinels when the function code is 5), then dispatch to the
matching frame builder. Returns the dispatched frame, or `none` when
the function code matches no case of the switch. -/
def mbio_execute_generic1 (gc : parser_block) : Option modbus_message :=
  let device_address : ℤ := truncFVal gc.values.d
  let register_address : ℕ := toU16 ((toU16 (truncFVal gc.values.p) : ℤ) - 1)
  let value0 : ℕ := toU16 (truncFVal gc.values.q)
  let value : ℕ := if truncFVal gc.values.e = 5 then (if 0 < value0 then 0xff00 else 0) else value0
  if truncFVal gc.values.e = (ModBus_ReadCoils : ℤ) then
    some (mbio_ModBus_ReadCoils_msg device_address register_address value)
  else if truncFVal gc.values.e = (ModBus_ReadDiscreteInputs : ℤ) then
    some (mbio_ModBus_ReadDiscreteInputs_msg device_address register_address 1)
  else if truncFVal gc.values.e = (ModBus_ReadInputRegisters : ℤ) then
    some (mbio_ModBus_ReadInputRegisters_msg device_address register_address 1)
  else if truncFVal gc.values.e = (ModBus_ReadHoldingRegisters : ℤ) then
    some (mbio_ModBus_ReadHoldingRegisters_msg device_address register_address)
  else if truncFVal gc.values.e = (ModBus_WriteCoil : ℤ) then
    some (mbio_ModBus_WriteCoil_msg device_address register_address value)
  else if truncFVal gc.values.e = (ModBus_WriteRegister : ℤ) then
    some (mbio_ModBus_WriteRegister_msg device_address register_address value)
  else none

/-- Host-visible side effects of the response and exception handlers. -/
inductive MbioAction where
  | warnMessage
  | raiseAlarm
  | enqueueAlarmTask
  | enqueueWarningTask
deriving DecidableEq, Repr

/-- `mbio_failed`: during cold start the alarm is deferred by enqueuing
`mbio_raise_alarm` as a foreground task; otherwise the alarm is raised
immediately and a warning task is enqueued. Always returns `true`. -/
def mbio_failed (cold_start : Bool) : Bool × List MbioAction :=
  if cold_start then (true, [MbioAction.enqueueAlarmTask])
  else (true, [MbioAction.raiseAlarm, MbioAction.enqueueWarningTask])

/-- `mbio_rx_exception`: the transport exception callback ignores its
code and context arguments and calls `mbio_failed`. -/
def mbio_rx_exception (code : ℕ) (cold_start : Bool) : List MbioAction :=
  (mbio_failed cold_start).2

/-- `mbio_rx_packet`: the transport completion callback. Takes the
received message and the current value of `sys.var5399` and returns
the new value of `sys.var5399` together with the emitted actions. -/
def mbio_rx_packet (msg : modbus_message) (var5399 : ℤ) : ℤ × List MbioAction :=
  if getAdu msg 0 &&& 0x80 = 0 then
    if msg.context = MBIO_Command then
      if getAdu msg 1 = ModBus_ReadDiscreteInputs then
        (((getAdu msg 3 &&& 0x01 : ℕ) : ℤ), [])
      else if getAdu msg 1 = ModBus_ReadCoils then
        (((getAdu msg 3 : ℕ) : ℤ), [])
      else if getAdu msg 1 = ModBus_ReadInputRegisters
              ∨ getAdu msg 1 = ModBus_ReadHoldingRegisters then
        ((modbus_read_u16 (getAdu msg 3) (getAdu msg 4) : ℤ), [])
      else (var5399, [])
    else (var5399, [])
  else (var5399, [MbioAction.warnMessage])

/-- Modelled from the spec: `MBIO_WAIT_STEP`, the fixed step duration
of the polling loop in milliseconds, declared in `modbus_io.h` which is
not under `src/`; 50 matches the fixed `hal.delay_ms(50, NULL)` call in
the loop body. -/
def MBIO_WAIT_STEP : ℚ := 50

/-- The step-count computation of `mbio_Wait_ReadDiscreteInputs`:
`(uint_fast16_t)ceilf((1000.0f / MBIO_WAIT_STEP) * timeout) + 1`. -/
def delaySteps (timeout : ℚ) : ℕ :=
  (Rat.ceil ((1000 / MBIO_WAIT_STEP) * timeout)).toNat + 1

/-- Observable outcome of one call of the polling loop: the returned
value, the number of read transactions issued, and the number of
50 ms sleeps performed. -/
structure WaitResult where
  ret : ℤ
  reads : ℕ
  sleeps : ℕ
deriving DecidableEq, Repr

/-- The do-while loop of `mbio_Wait_ReadDiscreteInputs`. `obs i` is the
value of `sys.var5399` observed right after the read transaction of
iteration `i` (each read dispatches a read-discrete-inputs frame with
count 1, counted in `reads`), and `abort i` is the value of `sys.abort`
read by the loop condition of iteration `i`. `delay` is the remaining
step budget; the loop condition is `--delay && !sys.abort`. -/
def waitLoopAux (obs : ℕ → ℤ) (abort : ℕ → Bool) (value : ℤ) :
    ℕ → ℕ → ℕ → ℕ → WaitResult
  | i, delay, reads, sleeps =>
    if obs i = value then ⟨value, reads + 1, sleeps⟩
    else
      match delay with
      | 0 => ⟨-1, reads + 1, sleeps⟩
      | d + 1 =>
        if d = 0 ∨ abort i = true then ⟨-1, reads + 1, sleeps + 1⟩
        else waitLoopAux obs abort value (i + 1) d (reads + 1) (sleeps + 1)

/-- `mbio_Wait_ReadDiscreteInputs`: initialise `ret = -1`, compute the
step budget from the timeout, then run the do-while loop. -/
def mbio_Wait_ReadDiscreteInputs (obs : ℕ → ℤ) (abort : ℕ → Bool)
    (value : ℤ) (timeout : ℚ) : WaitResult :=
  waitLoopAux obs abort value 0 (delaySteps timeout) 0 0

/-! ## Helper lemmas -/

/-- Splitting a 16-bit value into MSB/LSB bytes and rejoining them
big-endian is the identity below 2^16. -/
lemma modbus_read_u16_split (v : ℕ) (h : v < 65536) :
    modbus_read_u16 (MODBUS_SET_MSB16 v) (MODBUS_SET_LSB16 v) = v := by
  simp only [modbus_read_u16, MODBUS_SET_MSB16, MODBUS_SET_LSB16]
  omega

lemma isintf_den_one {q : ℚ} (h : q.den = 1) : isintf (FVal.num q) = true := by
  simp [isintf, h]

lemma truncFVal_den_one {q : ℚ} (h : q.den = 1) : truncFVal (FVal.num q) = q.num := by
  simp [truncFVal, h, Int.tdiv_one]

lemma toU16_small {z : ℤ} (h0 : 0 ≤ z) (h : z < 65536) : toU16 z = z.toNat := by
  simp only [toU16]
  omega

/-- A rational with denominator one equals the cast of its numerator. -/
lemma den_one_cast {q : ℚ} (h : q.den = 1) : (q.num : ℚ) = q :=
  (Rat.den_eq_one_iff q).mp h

/-! ## C9: read-holding-registers frame shape -/

/-- C9: for every device address and register address, the
read-holding-registers frame encodes the fixed count bytes 0x00/0x01
(exactly one register) and declares an expected response length of 7
bytes; the builder takes no value argument at all, so no caller value
can influence the frame. -/
theorem readHoldingRegisters_frame_fixed_count (da : ℤ) (ra : ℕ) :
    getAdu (mbio_ModBus_ReadHoldingRegisters_msg da ra) 4 = 0x00
  ∧ getAdu (mbio_ModBus_ReadHoldingRegisters_msg da ra) 5 = 0x01
  ∧ (mbio_ModBus_ReadHoldingRegisters_msg da ra).rx_length = 7 := by
  refine ⟨rfl, rfl, rfl⟩

/-! ## C10: frame/context invariants and result-register routing -/

/-- C10: every frame produced by the six frame builders carries the
context tag `MBIO_Command`, has `crc_check = true` and a transmit
length of 8 bytes; and the response handler leaves `sys.var5399`
unchanged for any message whose context tag differs from
`MBIO_Command`, for any message with the error-indicator bit set, and
for write-coil/write-register acknowledgement responses. -/
theorem mbio_frames_tagged_and_rx_routing :
    (∀ (da : ℤ) (ra v : ℕ),
        (mbio_ModBus_ReadCoils_msg da ra v).context = MBIO_Command
      ∧ (mbio_ModBus_ReadCoils_msg da ra v).crc_check = true
      ∧ (mbio_ModBus_ReadCoils_msg da ra v).tx_length = 8
      ∧ (mbio_ModBus_WriteCoil_msg da ra v).context = MBIO_Command
      ∧ (mbio_ModBus_WriteCoil_msg da ra v).crc_check = true
      ∧ (mbio_ModBus_WriteCoil_msg da ra v).tx_length = 8
      ∧ (mbio_ModBus_ReadDiscreteInputs_msg da ra v).context = MBIO_Command
      ∧ (mbio_ModBus_ReadDiscreteInputs_msg da ra v).crc_check = true
      ∧ (mbio_ModBus_ReadDiscreteInputs_msg da ra v).tx_length = 8
      ∧ (mbio_ModBus_ReadHoldingRegisters_msg da ra).context = MBIO_Command
      ∧ (mbio_ModBus_ReadHoldingRegisters_msg da ra).crc_check = true
      ∧ (mbio_ModBus_ReadHoldingRegisters_msg da ra).tx_length = 8
      ∧ (mbio_ModBus_ReadInputRegisters_msg da ra v).context = MBIO_Command
      ∧ (mbio_ModBus_ReadInputRegisters_msg da ra v).crc_check = true
      ∧ (mbio_ModBus_ReadInputRegisters_msg da ra v).tx_length = 8
      ∧ (mbio_ModBus_WriteRegister_msg da ra v).context = MBIO_Command
      ∧ (mbio_ModBus_WriteRegister_msg da ra v).crc_check = true
      ∧ (mbio_ModBus_WriteRegister_msg da ra v).tx_length = 8)
  ∧ (∀ (msg : modbus_message) (v : ℤ),
        (msg.context ≠ MBIO_Command → (mbio_rx_packet msg v).1 = v)
      ∧ (getAdu msg 0 &&& 0x80 ≠ 0 → (mbio_rx_packet msg v).1 = v)
      ∧ (getAdu msg 1 = ModBus_WriteCoil ∨ getAdu msg 1 = ModBus_WriteRegister →
           (mbio_rx_packet msg v).1 = v)) := by
  constructor
  · intro da ra v
    exact ⟨rfl, rfl, rfl, rfl, rfl, rfl, rfl, rfl, rfl, rfl, rfl, rfl, rfl, rfl, rfl, rfl, rfl, rfl⟩
  · intro msg v
    refine ⟨?_, ?_, ?_⟩
    · intro hctx
      unfold mbio_rx_packet
      by_cases herr : getAdu msg 0 &&& 0x80 = 0
      · rw [if_pos herr, if_neg hctx]
      · rw [if_neg herr]
    · intro herr
      unfold mbio_rx_packet
      rw [if_neg herr]
    · intro hfc
      unfold mbio_rx_packet
      by_cases herr : getAdu msg 0 &&& 0x80 = 0
      · rw [if_pos herr]
        by_cases hctx : msg.context = MBIO_Command
        · rw [if_pos hctx]
          rcases hfc with h | h <;>
            simp [h, ModBus_WriteCoil, ModBus_WriteRegister, ModBus_ReadDiscreteInputs,
                  ModBus_ReadCoils, ModBus_ReadInputRegisters, ModBus_ReadHoldingRegisters]
        · rw [if_neg hctx]
      · rw [if_neg herr]

/-- A received message with a foreign context tag (used by the C10
witness). -/
def msgOtherCtx : modbus_message :=
  { context := 42, crc_check := true
  , adu := [1, 3, 0, 0, 42, 0, 0, 0], tx_length := 8, rx_length := 7 }

/-- A received message with the error-indicator bit set (used by the
C10 witness). -/
def msgErrBit : modbus_message :=
  { context := MBIO_Command, crc_check := true
  , adu := [0x81, 3, 0, 0, 42, 0, 0, 0], tx_length := 8, rx_length := 7 }

/-- A write-coil acknowledgement response (used by the C10 witness). -/
def msgWriteEcho : modbus_message :=
  { context := MBIO_Command, crc_check := true
  , adu := [1, 5, 0, 0, 0xff, 0, 0, 0], tx_length := 8, rx_length := 8 }

/-- Witness for C10: concrete messages with a foreign context tag, with
the error bit set, and a write acknowledgement all leave the result
register (here 7) unchanged. -/
theorem mbio_frames_tagged_and_rx_routing_witness :
    (mbio_rx_packet msgOtherCtx 7).1 = 7
  ∧ (mbio_rx_packet msgErrBit 7).1 = 7
  ∧ (mbio_rx_packet msgWriteEcho 7).1 = 7 :=
  ⟨(mbio_frames_tagged_and_rx_routing.2 msgOtherCtx 7).1 (by decide),
   (mbio_frames_tagged_and_rx_routing.2 msgErrBit 7).2.1 (by decide),
   (mbio_frames_tagged_and_rx_routing.2 msgWriteEcho 7).2.2 (Or.inl (by decide))⟩

/-! ## C1: behaviour on error-flagged responses -/

/-- A response message with the error-indicator bit set (first ADU byte
0x83 = function 3 with bit 7 set), carrying the context
tag of this plugin. -/
def errMsg : modbus_message :=
  { context := MBIO_Command, crc_check := true
  , adu := [0x83, 2, 0, 1, 0, 0, 0, 0], tx_length := 8, rx_length := 6 }

/-- Counterexample to C1 as stated: for the concrete error-flagged
response `errMsg`, the response handler leaves the result register
unchanged (as claimed) but raises no alarm at all, neither immediately
nor as an enqueued task: its only action is a user-visible warning
message. The cold-start-distinguishing alarm path lives in the
exception callback, not in the response handler. -/
theorem rx_error_response_no_alarm_cex :
    getAdu errMsg 0 &&& 0x80 ≠ 0
  ∧ (mbio_rx_packet errMsg 5).1 = 5
  ∧ (mbio_rx_packet errMsg 5).2 = [MbioAction.warnMessage]
  ∧ MbioAction.raiseAlarm ∉ (mbio_rx_packet errMsg 5).2
  ∧ MbioAction.enqueueAlarmTask ∉ (mbio_rx_packet errMsg 5).2 := by
  decide

/-- C1 (amended): a received response with the error-indicator bit set
never updates the result register and only emits a user-visible
warning message; the alarm path that distinguishes cold start
(deferred as an enqueued task) from normal operation (raised
immediately plus an enqueued warning task) is triggered by the
transport exception callback `mbio_rx_exception` via `mbio_failed`,
not by the error-indicator bit of a received response. -/
theorem rx_error_response_and_exception_paths :
    (∀ (msg : modbus_message) (v : ℤ), getAdu msg 0 &&& 0x80 ≠ 0 →
        mbio_rx_packet msg v = (v, [MbioAction.warnMessage]))
  ∧ (∀ (code : ℕ) (cold : Bool), mbio_rx_exception code cold = (mbio_failed cold).2)
  ∧ mbio_failed true = (true, [MbioAction.enqueueAlarmTask])
  ∧ mbio_failed false = (true, [MbioAction.raiseAlarm, MbioAction.enqueueWarningTask]) := by
  refine ⟨?_, fun code cold => rfl, rfl, rfl⟩
  intro msg v herr
  unfold mbio_rx_packet
  rw [if_neg herr]

/-- Witness for the amended C1 at the concrete message `errMsg`. -/
theorem rx_error_response_and_exception_paths_witness :
    mbio_rx_packet errMsg 5 = (5, [MbioAction.warnMessage]) :=
  rx_error_response_and_exception_paths.1 errMsg 5 (by decide)

/-! ## C5: termination and step bound of the polling loop -/

/-- With a positive step budget `d + 1`, the loop performs at most
`d + 1` read transactions beyond the `r` already counted. -/
lemma waitLoopAux_reads_le (obs : ℕ → ℤ) (abort : ℕ → Bool) (value : ℤ) :
    ∀ (d i r s : ℕ), (waitLoopAux obs abort value i (d + 1) r s).reads ≤ r + (d + 1) := by
  intro d
  induction d with
  | zero =>
    intro i r s
    unfold waitLoopAux
    by_cases h : obs i = value
    · simp [h]
    · simp [h]
  | succ n ih =>
    intro i r s
    unfold waitLoopAux
    by_cases h : obs i = value
    · simp [h]
    · by_cases ha : abort i = true
      · simp [h, ha]
      · simp only [h, ha, if_false, Nat.succ_ne_zero, false_or, Bool.false_eq_true, or_false]
        have := ih (i + 1) (r + 1) (s + 1)
        omega

/-- If no iteration ever observes the target value, the loop returns
the sentinel -1, whatever the budget. -/
lemma waitLoopAux_ret_of_no_match (obs : ℕ → ℤ) (abort : ℕ → Bool) (value : ℤ)
    (hnm : ∀ i, obs i ≠ value) :
    ∀ (delay i r s : ℕ), (waitLoopAux obs abort value i delay r s).ret = -1 := by
  intro delay
  induction delay with
  | zero =>
    intro i r s
    unfold waitLoopAux
    simp [hnm i]
  | succ n ih =>
    intro i r s
    unfold waitLoopAux
    simp only [hnm i, if_false]
    by_cases ha : n = 0 ∨ abort i = true
    · simp [ha]
    · simp only [ha, if_false]
      exact ih (i + 1) (r + 1) (s + 1)

/-- C5: for every non-negative timeout `t`, the polling loop
terminates with a step budget of `ceil(t / step-duration) + 1` steps
(the step duration being `MBIO_WAIT_STEP` milliseconds), it issues at
most that many read transactions, and when no iteration observes the
target value it returns the sentinel -1 (distinct from the legitimate
target values 0 and 1). -/
theorem mbio_Wait_terminates_with_bound (obs : ℕ → ℤ) (abort : ℕ → Bool)
    (value : ℤ) (t : ℚ) (ht : 0 ≤ t) (hnm : ∀ i, obs i ≠ value) :
    (mbio_Wait_ReadDiscreteInputs obs abort value t).ret = -1
  ∧ (mbio_Wait_ReadDiscreteInputs obs abort value t).reads ≤ delaySteps t
  ∧ delaySteps t = (Rat.ceil (t / (MBIO_WAIT_STEP / 1000))).toNat + 1 := by
  refine ⟨waitLoopAux_ret_of_no_match obs abort value hnm _ 0 0 0, ?_, ?_⟩
  · have h := waitLoopAux_reads_le obs abort value ((Rat.ceil ((1000 / MBIO_WAIT_STEP) * t)).toNat) 0 0 0
    simpa [mbio_Wait_ReadDiscreteInputs, delaySteps] using h
  · have harg : (1000 / MBIO_WAIT_STEP) * t = t / (MBIO_WAIT_STEP / 1000) := by
      rw [MBIO_WAIT_STEP]
      norm_num
      ring
    rw [delaySteps, harg]

/-- Witness for C5: target 1, a transport that always reports 0, no
abort, timeout 1 s. -/
theorem mbio_Wait_terminates_with_bound_witness :
    (mbio_Wait_ReadDiscreteInputs (fun _ => 0) (fun _ => false) 1 1).ret = -1
  ∧ (mbio_Wait_ReadDiscreteInputs (fun _ => 0) (fun _ => false) 1 1).reads ≤ delaySteps 1
  ∧ delaySteps 1 = (Rat.ceil ((1 : ℚ) / (MBIO_WAIT_STEP / 1000))).toNat + 1 :=
  mbio_Wait_terminates_with_bound (fun _ => 0) (fun _ => false) 1 1
    (by decide) (fun i => by simp)

/-! ## C6: behaviour when the abort signal is set before the loop starts -/

/-- Counterexample to C6 as stated: with the global abort signal
already set before the first iteration, the loop does not report
"aborted" immediately: it still executes a full first iteration. If
the first read matches the target it returns the target value 1, not
the not-matched sentinel -1; and if the first read does not match, one
50 ms sleep is still performed. -/
theorem mbio_Wait_abort_preset_cex :
    (fun _ => true : ℕ → Bool) 0 = true
  ∧ (mbio_Wait_ReadDiscreteInputs (fun _ => 1) (fun _ => true) 1 1).ret = 1
  ∧ (1 : ℤ) ≠ -1
  ∧ (mbio_Wait_ReadDiscreteInputs (fun _ => 0) (fun _ => true) 1 1).reads = 1
  ∧ (mbio_Wait_ReadDiscreteInputs (fun _ => 0) (fun _ => true) 1 1).sleeps = 1 := by
  have h : delaySteps 1 = 21 := by
    rw [delaySteps, MBIO_WAIT_STEP]
    norm_num [Rat.ceil]
    decide
  refine ⟨rfl, ?_, by decide, ?_, ?_⟩ <;>
    simp [mbio_Wait_ReadDiscreteInputs, h, waitLoopAux]

/-- C6 (amended): when the global abort signal is set before the first
iteration, the loop still executes exactly one iteration — it issues
exactly one read transaction; if that first read observes the target
it returns the target value with no sleep, otherwise it sleeps once
and returns the not-matched sentinel -1; no second read transaction is
issued either way. -/
theorem mbio_Wait_abort_preset_one_iteration (obs : ℕ → ℤ) (abort : ℕ → Bool)
    (value : ℤ) (t : ℚ) (ht : 0 ≤ t) (hab : abort 0 = true) :
    (mbio_Wait_ReadDiscreteInputs obs abort value t).reads = 1
  ∧ ((obs 0 = value
        ∧ (mbio_Wait_ReadDiscreteInputs obs abort value t).ret = value
        ∧ (mbio_Wait_ReadDiscreteInputs obs abort value t).sleeps = 0)
     ∨ (obs 0 ≠ value
        ∧ (mbio_Wait_ReadDiscreteInputs obs abort value t).ret = -1
        ∧ (mbio_Wait_ReadDiscreteInputs obs abort value t).sleeps = 1)) := by
  unfold mbio_Wait_ReadDiscreteInputs delaySteps
  by_cases h0 : obs 0 = value
  · unfold waitLoopAux
    simp [h0]
  · unfold waitLoopAux
    simp [h0, hab]

/-- Witness for the amended C6: abort always set, transport always
reporting 0, target 1, timeout 1 s. -/
theorem mbio_Wait_abort_preset_one_iteration_witness :
    (mbio_Wait_ReadDiscreteInputs (fun _ => 0) (fun _ => true) 1 1).reads = 1
  ∧ (((fun _ => 0 : ℕ → ℤ) 0 = 1
        ∧ (mbio_Wait_ReadDiscreteInputs (fun _ => 0) (fun _ => true) 1 1).ret = 1
        ∧ (mbio_Wait_ReadDiscreteInputs (fun _ => 0) (fun _ => true) 1 1).sleeps = 0)
     ∨ ((fun _ => 0 : ℕ → ℤ) 0 ≠ 1
        ∧ (mbio_Wait_ReadDiscreteInputs (fun _ => 0) (fun _ => true) 1 1).ret = -1
        ∧ (mbio_Wait_ReadDiscreteInputs (fun _ => 0) (fun _ => true) 1 1).sleeps = 1)) :=
  mbio_Wait_abort_preset_one_iteration (fun _ => 0) (fun _ => true) 1 1 (by decide) rfl

/-! ## C7: structural (missing / non-integer) checks take precedence -/

/-- The rational 3/2, a non-integral parameter value. -/
def rHalf : ℚ := ⟨3, 2, by decide, by decide⟩

/-- An M102 block whose required timeout word R carries the
non-integer value 3/2 while every other parameter is valid. -/
def blkC7 : parser_block :=
  { user_mcode := user_mcode_t.generic2
  , words := { d := true, e := false, p := true, q := true, r := true }
  , values := { d := FVal.num 1, e := FVal.nan, p := FVal.num 1, q := FVal.num 1
              , r := FVal.num rHalf } }

/-- Counterexample to C7 as stated: for M102, the required timeout
word R is only checked for presence and non-NaN, not for integrality,
so a block whose R value is the non-integer 3/2 validates to
`Status_OK` instead of the parameter-format status the claim
predicts. -/
theorem mbio_validate_structural_cex :
    blkC7.words.r = true
  ∧ isintf blkC7.values.r = false
  ∧ (mbio_validate blkC7).1 = status_code.ok
  ∧ status_code.ok ≠ status_code.badNumberFormat := by
  decide

/-- C7 (amended): for M101, whenever the D, E or P word is missing or
non-integer, or a supplied Q word is non-integer, validation returns
the parameter-format status `Status_BadNumberFormat` regardless of any
range violation; for M102 the same holds for D, P and Q, while the
timeout word R triggers the format status only when missing or NaN
(its value is not checked for integrality). Range checks can never
override a structural failure. -/
theorem mbio_validate_structural_precedence :
    (∀ gc : parser_block, gc.user_mcode = user_mcode_t.generic1 →
      (gc.words.d = false ∨ isintf gc.values.d = false
       ∨ gc.words.e = false ∨ isintf gc.values.e = false
       ∨ gc.words.p = false ∨ isintf gc.values.p = false
       ∨ (gc.words.q = true ∧ isintf gc.values.q = false)) →
      (mbio_validate gc).1 = status_code.badNumberFormat)
  ∧ (∀ gc : parser_block, gc.user_mcode = user_mcode_t.generic2 →
      (gc.words.d = false ∨ isintf gc.values.d = false
       ∨ gc.words.p = false ∨ isintf gc.values.p = false
       ∨ gc.words.q = false ∨ isintf gc.values.q = false
       ∨ gc.words.r = false ∨ isnanf gc.values.r = true) →
      (mbio_validate gc).1 = status_code.badNumberFormat) := by
  constructor
  · intro gc hmc h
    simp only [mbio_validate, hmc]
    unfold mbio_validate_M101
    rcases h with h | h | h | h | h | h | ⟨h1, h2⟩ <;>
      simp_all [m101_structural_state, ite_self]
  · intro gc hmc h
    simp only [mbio_validate, hmc]
    unfold mbio_validate_M102
    rcases h with h | h | h | h | h | h | h | h <;>
      simp_all [m102_structural_state, ite_self]

/-- An M101 block with the D word missing (used by the C7 witness). -/
def blkC7w : parser_block :=
  { user_mcode := user_mcode_t.generic1
  , words := { d := false, e := true, p := true, q := false, r := false }
  , values := { d := FVal.num 1, e := FVal.num 3, p := FVal.num 1, q := FVal.num 0
              , r := FVal.nan } }

/-- Witness for the amended C7: a missing D word forces the
parameter-format status. -/
theorem mbio_validate_structural_precedence_witness :
    (mbio_validate blkC7w).1 = status_code.badNumberFormat :=
  mbio_validate_structural_precedence.1 blkC7w rfl (Or.inl rfl)

/-! ## C2: M101 range validation -/

/-- An M101 block with function code 2 (read-discrete-inputs) and a
supplied integer value Q = 70000 outside [0, 65535]; all other
parameters are valid. -/
def blkC2 : parser_block :=
  { user_mcode := user_mcode_t.generic1
  , words := { d := true, e := true, p := true, q := true, r := false }
  , values := { d := FVal.num 1, e := FVal.num 2, p := FVal.num 1, q := FVal.num 70000
              , r := FVal.nan } }

/-- Counterexample to C2 as stated: with function code
read-discrete-inputs the claim says the supplied value is
unconstrained, but the concrete block `blkC2` (device address 1,
register address 1, value 70000) is rejected with the range status
instead of validating successfully. -/
theorem mbio_validate_M101_range_cex :
    blkC2.values.e = FVal.num 2
  ∧ (mbio_validate blkC2).1 = status_code.gcodeValueOutOfRange
  ∧ status_code.gcodeValueOutOfRange ≠ status_code.ok := by
  decide

/-- C2 (amended): for every M101 invocation with all of D, E, P, Q
present and integer-valued, device address in [0, 247] and function
code one of the six supported codes, validation succeeds if and only
if the register address lies in [1, 9999] and the value lies in
[0, 65535] — the value range check applies to all six function codes,
including read-discrete-inputs and read-input-registers (whose value
is only afterwards overwritten with the fixed count 1). -/
theorem mbio_validate_M101_ok_iff (gc : parser_block) (dv ev pv qv : ℚ)
    (hmc : gc.user_mcode = user_mcode_t.generic1)
    (hwd : gc.words.d = true) (hwe : gc.words.e = true)
    (hwp : gc.words.p = true) (hwq : gc.words.q = true)
    (hvd : gc.values.d = FVal.num dv) (hve : gc.values.e = FVal.num ev)
    (hvp : gc.values.p = FVal.num pv) (hvq : gc.values.q = FVal.num qv)
    (hdden : dv.den = 1) (heden : ev.den = 1)
    (hpden : pv.den = 1) (hqden : qv.den = 1)
    (hd0 : 0 ≤ dv) (hd247 : dv ≤ 247)
    (he : ev = 1 ∨ ev = 2 ∨ ev = 3 ∨ ev = 4 ∨ ev = 5 ∨ ev = 6) :
    (mbio_validate gc).1 = status_code.ok
      ↔ (1 ≤ pv ∧ pv ≤ 9999 ∧ 0 ≤ qv ∧ qv ≤ 65535) := by
  simp only [mbio_validate, hmc]
  unfold mbio_validate_M101
  simp only [m101_structural_state, hwd, hwe, hwp, hwq, hvd, hve, hvp, hvq,
    isintf_den_one hdden, isintf_den_one heden, isintf_den_one hpden, isintf_den_one hqden,
    Bool.not_true, Bool.or_self, Bool.and_false, Bool.false_eq_true, if_false, ne_eq]
  have hd1 : flt (FVal.num dv) 0 = false := by
    simp only [flt, decide_eq_false_iff_not]
    exact not_lt.mpr hd0
  have hd2 : fgt (FVal.num dv) 247 = false := by
    simp only [fgt, decide_eq_false_iff_not]
    exact not_lt.mpr hd247
  have he6 : (fne (FVal.num ev) 2 && fne (FVal.num ev) 4
      && fne (FVal.num ev) 5 && fne (FVal.num ev) 6
      && fne (FVal.num ev) 3 && fne (FVal.num ev) 1) = false := by
    rcases he with rfl | rfl | rfl | rfl | rfl | rfl <;> decide
  have hcond : (flt (FVal.num pv) 1 || fgt (FVal.num pv) 9999
      || flt (FVal.num qv) 0 || fgt (FVal.num qv) 65535) = false
      ↔ (1 ≤ pv ∧ pv ≤ 9999 ∧ 0 ≤ qv ∧ qv ≤ 65535) := by
    simp only [flt, fgt, Bool.or_eq_false_iff, decide_eq_false_iff_not, not_lt]
    tauto
  rw [if_pos (show ¬status_code.gcodeValueWordMissing = status_code.badNumberFormat by decide)]
  simp only [hd1, hd2, he6, Bool.false_or, Bool.or_false]
  rcases Bool.eq_false_or_eq_true (flt (FVal.num pv) 1 || fgt (FVal.num pv) 9999
      || flt (FVal.num qv) 0 || fgt (FVal.num qv) 65535) with hc | hc
  · rw [hc, if_pos rfl]
    constructor
    · intro habs
      exact absurd (show status_code.gcodeValueOutOfRange = status_code.ok from habs) (by decide)
    · intro hR
      rw [hcond.mpr hR] at hc
      exact absurd hc (by decide)
  · rw [hc, if_neg (by decide)]
    constructor
    · intro _
      exact hcond.mp hc
    · intro _
      rfl

/-- An M101 block with function code 5 (write-coil) and all
parameters valid (used by the C2 witness). -/
def blkC2w : parser_block :=
  { user_mcode := user_mcode_t.generic1
  , words := { d := true, e := true, p := true, q := true, r := false }
  , values := { d := FVal.num 1, e := FVal.num 5, p := FVal.num 1, q := FVal.num 2
              , r := FVal.nan } }

/-- Witness for the amended C2 at the concrete block `blkC2w`. -/
theorem mbio_validate_M101_ok_iff_witness :
    (mbio_validate blkC2w).1 = status_code.ok
      ↔ (1 ≤ (1 : ℚ) ∧ (1 : ℚ) ≤ 9999 ∧ 0 ≤ (2 : ℚ) ∧ (2 : ℚ) ≤ 65535) :=
  mbio_validate_M101_ok_iff blkC2w 1 5 1 2 rfl rfl rfl rfl rfl rfl rfl rfl rfl
    (by decide) (by decide) (by decide) (by decide) (by decide) (by decide)
    (Or.inr (Or.inr (Or.inr (Or.inr (Or.inl rfl)))))

/-! ## C3: M102 timeout validation -/

/-- An M102 block with all parameters valid except the timeout
R = 4000 seconds (non-negative, above the 3600 s bound). -/
def blkC3 : parser_block :=
  { user_mcode := user_mcode_t.generic2
  , words := { d := true, e := false, p := true, q := true, r := true }
  , values := { d := FVal.num 1, e := FVal.nan, p := FVal.num 1, q := FVal.num 1
              , r := FVal.num 4000 } }

/-- Counterexample to C3 as stated: the claim says every timeout ≥ 0
is accepted, but the concrete block `blkC3` with timeout 4000 s (≥ 0,
not NaN, all other parameters valid) is rejected with the range
status: the validator bounds the timeout by 3600 s. -/
theorem mbio_validate_M102_timeout_cex :
    blkC3.values.r = FVal.num 4000
  ∧ (0 : ℚ) ≤ 4000
  ∧ (mbio_validate blkC3).1 = status_code.gcodeValueOutOfRange
  ∧ status_code.gcodeValueOutOfRange ≠ status_code.ok := by
  decide

/-- C3 (amended): for every M102 invocation whose other parameters are
valid (all words present, D/P/Q integer-valued and in range, R not
NaN), validation succeeds if and only if the timeout lies in the range
[0, 3600] seconds: non-negativity is necessary but not sufficient, the
validator also enforces the 3600 s upper bound. -/
theorem mbio_validate_M102_timeout_iff (gc : parser_block) (dv pv qv rv : ℚ)
    (hmc : gc.user_mcode = user_mcode_t.generic2)
    (hwd : gc.words.d = true) (hwp : gc.words.p = true)
    (hwq : gc.words.q = true) (hwr : gc.words.r = true)
    (hvd : gc.values.d = FVal.num dv) (hvp : gc.values.p = FVal.num pv)
    (hvq : gc.values.q = FVal.num qv) (hvr : gc.values.r = FVal.num rv)
    (hdden : dv.den = 1) (hpden : pv.den = 1) (hqden : qv.den = 1)
    (hd0 : 0 ≤ dv) (hd247 : dv ≤ 247)
    (hp1 : 1 ≤ pv) (hp9999 : pv ≤ 9999)
    (hq0 : 0 ≤ qv) (hq1 : qv ≤ 1) :
    (mbio_validate gc).1 = status_code.ok ↔ (0 ≤ rv ∧ rv ≤ 3600) := by
  simp only [mbio_validate, hmc]
  unfold mbio_validate_M102
  simp only [m102_structural_state, hwd, hwp, hwq, hwr, hvd, hvp, hvq, hvr,
    isintf_den_one hdden, isintf_den_one hpden, isintf_den_one hqden, isnanf,
    Bool.not_true, Bool.or_self, Bool.or_false, Bool.false_eq_true, if_false, ne_eq]
  rw [if_pos (show ¬status_code.gcodeValueWordMissing = status_code.badNumberFormat by decide)]
  have hd1 : flt (FVal.num dv) 0 = false := by
    simp only [flt, decide_eq_false_iff_not]
    exact not_lt.mpr hd0
  have hd2 : fgt (FVal.num dv) 247 = false := by
    simp only [fgt, decide_eq_false_iff_not]
    exact not_lt.mpr hd247
  have hp1f : flt (FVal.num pv) 1 = false := by
    simp only [flt, decide_eq_false_iff_not]
    exact not_lt.mpr hp1
  have hp2f : fgt (FVal.num pv) 9999 = false := by
    simp only [fgt, decide_eq_false_iff_not]
    exact not_lt.mpr hp9999
  have hq1f : flt (FVal.num qv) 0 = false := by
    simp only [flt, decide_eq_false_iff_not]
    exact not_lt.mpr hq0
  have hq2f : fgt (FVal.num qv) 1 = false := by
    simp only [fgt, decide_eq_false_iff_not]
    exact not_lt.mpr hq1
  have hcond : (flt (FVal.num rv) 0 || fgt (FVal.num rv) 3600) = false
      ↔ (0 ≤ rv ∧ rv ≤ 3600) := by
    simp only [flt, fgt, Bool.or_eq_false_iff, decide_eq_false_iff_not, not_lt]
  simp only [hd1, hd2, hp1f, hp2f, hq1f, hq2f, Bool.false_or, Bool.or_false]
  rcases Bool.eq_false_or_eq_true (flt (FVal.num rv) 0 || fgt (FVal.num rv) 3600) with hc | hc
  · rw [hc, if_pos rfl]
    constructor
    · intro habs
      exact absurd (show status_code.gcodeValueOutOfRange = status_code.ok from habs) (by decide)
    · intro hR
      rw [hcond.mpr hR] at hc
      exact absurd hc (by decide)
  · rw [hc, if_neg (by decide)]
    constructor
    · intro _
      exact hcond.mp hc
    · intro _
      rfl

/-- An M102 block with timeout 100 s and all other parameters valid
(used by the C3 witness). -/
def blkC3w : parser_block :=
  { user_mcode := user_mcode_t.generic2
  , words := { d := true, e := false, p := true, q := true, r := true }
  , values := { d := FVal.num 1, e := FVal.nan, p := FVal.num 1, q := FVal.num 1
              , r := FVal.num 100 } }

/-- Witness for the amended C3 at the concrete block `blkC3w`. -/
theorem mbio_validate_M102_timeout_iff_witness :
    (mbio_validate blkC3w).1 = status_code.ok ↔ (0 ≤ (100 : ℚ) ∧ (100 : ℚ) ≤ 3600) :=
  mbio_validate_M102_timeout_iff blkC3w 1 1 1 100 rfl rfl rfl rfl rfl rfl rfl rfl rfl
    (by decide) (by decide) (by decide) (by decide) (by decide) (by decide)
    (by decide) (by decide) (by decide)

/-! ## C4: read-coils execution passes the caller value as count -/

/-- A validated M101 read-coils block with value Q = 5. -/
def blkC4 : parser_block :=
  { user_mcode := user_mcode_t.generic1
  , words := { d := true, e := true, p := true, q := true, r := false }
  , values := { d := FVal.num 1, e := FVal.num 1, p := FVal.num 1, q := FVal.num 5
              , r := FVal.nan } }

/-- Counterexample to C4 as stated: for the validated read-coils block
`blkC4` with caller value 5, the dispatched frame requests 5 coils
(count field bytes 0x00/0x05), not exactly 1 coil as the claim says. -/
theorem mbio_execute_readCoils_cex :
    mbio_execute_generic1 blkC4 = some (mbio_ModBus_ReadCoils_msg 1 0 5)
  ∧ modbus_read_u16 (getAdu (mbio_ModBus_ReadCoils_msg 1 0 5) 4)
      (getAdu (mbio_ModBus_ReadCoils_msg 1 0 5) 5) = 5
  ∧ (5 : ℕ) ≠ 1 := by
  decide

/-- C4 (amended): for every validated M101 command with function code
read-coils, the executor builds and dispatches a read-coils frame at
the zero-based register index whose count field carries the raw
caller-supplied value (not a fixed count of 1), with expected response
length 6 bytes. -/
theorem mbio_execute_readCoils_uses_value (gc : parser_block) (pv qv : ℚ)
    (hve : gc.values.e = FVal.num 1)
    (hvp : gc.values.p = FVal.num pv) (hvq : gc.values.q = FVal.num qv)
    (hpden : pv.den = 1) (hqden : qv.den = 1)
    (hp1 : 1 ≤ pv) (hp9999 : pv ≤ 9999) (hq0 : 0 ≤ qv) (hq65535 : qv ≤ 65535) :
    mbio_execute_generic1 gc
      = some (mbio_ModBus_ReadCoils_msg (truncFVal gc.values.d) (pv.num.toNat - 1) qv.num.toNat)
  ∧ modbus_read_u16
      (getAdu (mbio_ModBus_ReadCoils_msg (truncFVal gc.values.d) (pv.num.toNat - 1) qv.num.toNat) 4)
      (getAdu (mbio_ModBus_ReadCoils_msg (truncFVal gc.values.d) (pv.num.toNat - 1) qv.num.toNat) 5)
      = qv.num.toNat
  ∧ (mbio_ModBus_ReadCoils_msg (truncFVal gc.values.d) (pv.num.toNat - 1) qv.num.toNat).rx_length
      = 6 := by
  have hcp : (pv.num : ℚ) = pv := den_one_cast hpden
  have hcq : (qv.num : ℚ) = qv := den_one_cast hqden
  rw [← hcp] at hp1 hp9999
  rw [← hcq] at hq0 hq65535
  have hpn1 : (1 : ℤ) ≤ pv.num := by exact_mod_cast hp1
  have hpn2 : pv.num ≤ 9999 := by exact_mod_cast hp9999
  have hqn0 : (0 : ℤ) ≤ qv.num := by exact_mod_cast hq0
  have hqn2 : qv.num ≤ 65535 := by exact_mod_cast hq65535
  have hte : truncFVal gc.values.e = 1 := by rw [hve]; decide
  have htp : truncFVal gc.values.p = pv.num := by rw [hvp]; exact truncFVal_den_one hpden
  have htq : truncFVal gc.values.q = qv.num := by rw [hvq]; exact truncFVal_den_one hqden
  have hra : toU16 ((toU16 pv.num : ℤ) - 1) = pv.num.toNat - 1 := by
    simp only [toU16]
    omega
  have hval : toU16 qv.num = qv.num.toNat := by
    simp only [toU16]
    omega
  refine ⟨?_, ?_, rfl⟩
  · simp [mbio_execute_generic1, hte, htp, htq, hra, hval, ModBus_ReadCoils]
  · have hlt : qv.num.toNat < 65536 := by omega
    have hsplit := modbus_read_u16_split qv.num.toNat hlt
    simpa [mbio_ModBus_ReadCoils_msg, getAdu] using hsplit

/-- Witness for the amended C4 at the concrete block `blkC4`. -/
theorem mbio_execute_readCoils_uses_value_witness :
    mbio_execute_generic1 blkC4
      = some (mbio_ModBus_ReadCoils_msg (truncFVal blkC4.values.d)
          ((1 : ℚ).num.toNat - 1) (5 : ℚ).num.toNat)
  ∧ modbus_read_u16
      (getAdu (mbio_ModBus_ReadCoils_msg (truncFVal blkC4.values.d)
          ((1 : ℚ).num.toNat - 1) (5 : ℚ).num.toNat) 4)
      (getAdu (mbio_ModBus_ReadCoils_msg (truncFVal blkC4.values.d)
          ((1 : ℚ).num.toNat - 1) (5 : ℚ).num.toNat) 5)
      = (5 : ℚ).num.toNat
  ∧ (mbio_ModBus_ReadCoils_msg (truncFVal blkC4.values.d)
      ((1 : ℚ).num.toNat - 1) (5 : ℚ).num.toNat).rx_length = 6 :=
  mbio_execute_readCoils_uses_value blkC4 1 5 rfl rfl rfl (by decide) (by decide)
    (by decide) (by decide) (by decide) (by decide)

/-! ## C8: write-coil on/off sentinel coercion at execution time -/

/-- The value fix-up switch of the M101 validator only touches function
codes 2 and 4: for any other function code the parameter values, and
in particular Q, are returned unchanged. -/
lemma mbio_validate_M101_preserves_q (gc : parser_block)
    (h2 : truncFVal gc.values.e ≠ 2) (h4 : truncFVal gc.values.e ≠ 4) :
    (mbio_validate_M101 gc).2.values.q = gc.values.q := by
  simp only [mbio_validate_M101]
  by_cases hbad : m101_structural_state gc ≠ status_code.badNumberFormat
  · rw [if_pos hbad]
    split <;> simp [claimWordsA]
  · rw [if_neg hbad]

/-- C8: for every validated M101 command with function code write-coil,
the executor coerces the value at execution time — value 0 is encoded
as the off sentinel 0x0000 and every nonzero value as the on sentinel
0xFF00 in the value field of the dispatched frame — while the validator
leaves the Q value of a write-coil block unchanged (its fix-up switch
only touches function codes 2 and 4). -/
theorem mbio_execute_writeCoil_coerces (gc : parser_block) (pv qv : ℚ)
    (hmc : gc.user_mcode = user_mcode_t.generic1)
    (hve : gc.values.e = FVal.num 5)
    (hvp : gc.values.p = FVal.num pv) (hvq : gc.values.q = FVal.num qv)
    (hpden : pv.den = 1) (hqden : qv.den = 1)
    (hp1 : 1 ≤ pv) (hp9999 : pv ≤ 9999) (hq0 : 0 ≤ qv) (hq65535 : qv ≤ 65535) :
    mbio_execute_generic1 gc
      = some (mbio_ModBus_WriteCoil_msg (truncFVal gc.values.d) (pv.num.toNat - 1)
          (if qv = 0 then 0x0000 else 0xff00))
  ∧ modbus_read_u16
      (getAdu (mbio_ModBus_WriteCoil_msg (truncFVal gc.values.d) (pv.num.toNat - 1)
          (if qv = 0 then 0x0000 else 0xff00)) 4)
      (getAdu (mbio_ModBus_WriteCoil_msg (truncFVal gc.values.d) (pv.num.toNat - 1)
          (if qv = 0 then 0x0000 else 0xff00)) 5)
      = (if qv = 0 then 0x0000 else 0xff00)
  ∧ (mbio_validate gc).2.values.q = gc.values.q := by
  have hcp : (pv.num : ℚ) = pv := den_one_cast hpden
  have hcq : (qv.num : ℚ) = qv := den_one_cast hqden
  have hpn1 : (1 : ℤ) ≤ pv.num := by
    rw [← hcp] at hp1
    exact_mod_cast hp1
  have hpn2 : pv.num ≤ 9999 := by
    rw [← hcp] at hp9999
    exact_mod_cast hp9999
  have hqn0 : (0 : ℤ) ≤ qv.num := by
    rw [← hcq] at hq0
    exact_mod_cast hq0
  have hqn2 : qv.num ≤ 65535 := by
    rw [← hcq] at hq65535
    exact_mod_cast hq65535
  have hte : truncFVal gc.values.e = 5 := by rw [hve]; decide
  have htp : truncFVal gc.values.p = pv.num := by rw [hvp]; exact truncFVal_den_one hpden
  have htq : truncFVal gc.values.q = qv.num := by rw [hvq]; exact truncFVal_den_one hqden
  have hra : toU16 ((toU16 pv.num : ℤ) - 1) = pv.num.toNat - 1 := by
    simp only [toU16]
    omega
  have hval : toU16 qv.num = qv.num.toNat := by
    simp only [toU16]
    omega
  have hcoerce : (if 0 < qv then (0xff00 : ℕ) else 0) = (if qv = 0 then 0x0000 else 0xff00) := by
    by_cases hq : qv = 0
    · simp [hq]
    · have hpos : 0 < qv := lt_of_le_of_ne hq0 (Ne.symm hq)
      simp [hq, hpos]
  refine ⟨?_, ?_, ?_⟩
  · simp [mbio_execute_generic1, hte, htp, htq, hra, hval, hcoerce,
      ModBus_ReadCoils, ModBus_ReadDiscreteInputs, ModBus_ReadInputRegisters,
      ModBus_ReadHoldingRegisters, ModBus_WriteCoil]
  · have hvlt : (if qv = 0 then (0x0000 : ℕ) else 0xff00) < 65536 := by
      by_cases hq : qv = 0 <;> simp [hq]
    have hsplit := modbus_read_u16_split (if qv = 0 then (0x0000 : ℕ) else 0xff00) hvlt
    simpa [mbio_ModBus_WriteCoil_msg, getAdu] using hsplit
  · have h2 : truncFVal gc.values.e ≠ 2 := by rw [hte]; decide
    have h4 : truncFVal gc.values.e ≠ 4 := by rw [hte]; decide
    simp only [mbio_validate, hmc]
    exact mbio_validate_M101_preserves_q gc h2 h4

/-- A validated M101 write-coil block with value Q = 3 (used by the C8
witness). -/
def blkC8w : parser_block :=
  { user_mcode := user_mcode_t.generic1
  , words := { d := true, e := true, p := true, q := true, r := false }
  , values := { d := FVal.num 1, e := FVal.num 5, p := FVal.num 1, q := FVal.num 3
              , r := FVal.nan } }

/-- Witness for C8 at the concrete block `blkC8w`. -/
theorem mbio_execute_writeCoil_coerces_witness :
    mbio_execute_generic1 blkC8w
      = some (mbio_ModBus_WriteCoil_msg (truncFVal blkC8w.values.d)
          ((1 : ℚ).num.toNat - 1) (if (3 : ℚ) = 0 then 0x0000 else 0xff00))
  ∧ modbus_read_u16
      (getAdu (mbio_ModBus_WriteCoil_msg (truncFVal blkC8w.values.d)
          ((1 : ℚ).num.toNat - 1) (if (3 : ℚ) = 0 then 0x0000 else 0xff00)) 4)
      (getAdu (mbio_ModBus_WriteCoil_msg (truncFVal blkC8w.values.d)
          ((1 : ℚ).num.toNat - 1) (if (3 : ℚ) = 0 then 0x0000 else 0xff00)) 5)
      = (if (3 : ℚ) = 0 then 0x0000 else 0xff00)
  ∧ (mbio_validate blkC8w).2.values.q = blkC8w.values.q :=
  mbio_execute_writeCoil_coerces blkC8w 1 3 rfl rfl rfl rfl (by decide) (by decide)
    (by decide) (by decide) (by decide) (by decide)
